import Mathlib

/-!
Shallow embedding of the cpphots plotting utilities (`tsplot.py`) and of the
interactive viewer (`tsvisualizer.py`).

Time surfaces are numpy arrays; only their shapes matter to the properties
verified here, so an array is embedded as its shape, a `List Nat` (one entry
per axis).  Python exceptions are modelled with `Except PyErr`; Python `%`
and `//` on integers agree with Lean's `Int.emod` and `Int.ediv` whenever
the divisor is positive, the only case the program exercises.
-/

/-- Python exceptions that the modelled code can raise. -/
inductive PyErr
  | fileNotFound
  | valueError
  | indexError
  | stopIteration
deriving DecidableEq, Repr

/-- `int(np.ceil(a / b))` for natural `a` and positive natural `b`. -/
def npCeil (a b : Nat) : Nat := (a + b - 1) / b

/-- The automatic `(rows, cols)` layout of `plot_multiple_ts` when
`arrangement is None` (tsplot.py lines 93-107).  The source loop
`for tcols in [5, 4, 3]` keeps `tcols` exactly when its number of empty
subplots is strictly smaller than the best so far (starting from `np.inf`),
so it is unrolled here: iteration 1 always keeps 5, iteration 2 keeps 4 iff
`e4 < e5`, iteration 3 keeps 3 iff `e3` is strictly below the current best. -/
def autoArrangement (n : Nat) : Nat × Nat :=
  if n < 3 then
    (1, n)
  else
    let e5 := 5 * npCeil n 5 - n
    let e4 := 4 * npCeil n 4 - n
    let e3 := 3 * npCeil n 3 - n
    let cols := if e4 < e5 then (if e3 < e4 then 3 else 4) else (if e3 < e5 then 3 else 5)
    (npCeil n cols, cols)

/-- `is_1d(ts)` from tsplot.py line 61:
`len(ts.shape) == 1 or ts.shape[0] == 1 or ts.shape[1] == 1`, with Python's
left-to-right short-circuit evaluation; indexing a missing axis raises
`IndexError`. -/
def is_1d (shape : List Nat) : Except PyErr Bool :=
  if shape.length = 1 then Except.ok true
  else
    match shape with
    | [] => Except.error PyErr.indexError
    | s0 :: rest =>
      if s0 = 1 then Except.ok true
      else
        match rest with
        | [] => Except.error PyErr.indexError
        | s1 :: _ => Except.ok (s1 = 1)

/-- Which of the two plotting routines a time surface is sent to. -/
inductive PlotKind
  | oneD
  | twoD
deriving DecidableEq, Repr

/-- `plot_ts` (tsplot.py lines 64-75): dispatch on `is_1d`. -/
def plot_ts (ts : List Nat) : Except PyErr PlotKind := do
  let b ← is_1d ts
  pure (if b then PlotKind.oneD else PlotKind.twoD)

/-- The plot loop of `plot_multiple_ts` (tsplot.py lines 110-115): each
surface in order is dispatched on `is_1d`; a raised exception aborts the
loop. -/
def dispatch_list (tss : List (List Nat)) : Except PyErr (List PlotKind) :=
  match tss with
  | [] => Except.ok []
  | ts :: rest => do
    let b ← is_1d ts
    let ks ← dispatch_list rest
    pure ((if b then PlotKind.oneD else PlotKind.twoD) :: ks)

/-- `plot_multiple_ts` (tsplot.py lines 78-116), observed through the chosen
`(rows, cols)` arrangement and the per-surface dispatch of the plot loop. -/
def plot_multiple_ts (tss : List (List Nat)) (arrangement : Option (Nat × Nat)) :
    Except PyErr ((Nat × Nat) × List PlotKind) := do
  let rc := match arrangement with
    | some a => a
    | none => autoArrangement tss.length
  let ks ← dispatch_list tss
  pure (rc, ks)

/-- `TSVisualizer.set_current` (tsvisualizer.py lines 467-498) as a pure
function from `(self._ndata, self._nsubplots, newcurrent, wrap)` to the new
value of `self._current`. -/
def set_current (ndata ns t : Int) (wrap : Bool) : Int :=
  let nc := t - t % ns
  if wrap then
    let nc1 := if nc ≥ ndata then 0 else nc
    if nc1 < 0 then
      let nc2 := ns * (ndata / ns)
      if nc2 = ndata then nc2 - ns else nc2
    else nc1
  else
    let nc1 :=
      if nc ≥ ndata then
        let nc2 := ns * (ndata / ns)
        if nc2 = ndata then nc2 - ns else nc2
      else nc
    if nc1 < 0 then 0 else nc1

/-- The viewer state touched by the navigation and toolbar code. -/
structure Viewer where
  subplots : Int × Int
  nsubplots : Int
  current : Int
  ndata : Int
deriving DecidableEq, Repr

/-- `TSVisualizer.advance` (lines 444-448): `set_current(current + nsubplots, wrap=True)`. -/
def advance (v : Viewer) : Viewer :=
  { v with current := set_current v.ndata v.nsubplots (v.current + v.nsubplots) true }

/-- `TSVisualizer.goback` (lines 450-454): `set_current(current - nsubplots, wrap=True)`. -/
def goback (v : Viewer) : Viewer :=
  { v with current := set_current v.ndata v.nsubplots (v.current - v.nsubplots) true }

/-- `TSVisualizer.rearrange_plots` (lines 366-389), state part: store the
subplot grid, recompute `nsubplots` and reset `current` to 0. -/
def rearrange_plots (v : Viewer) (sp : Option (Int × Int)) : Viewer :=
  let s := sp.getD v.subplots
  { v with subplots := s, nsubplots := s.1 * s.2, current := 0 }

/-- Python `str.strip()`: surrounding whitespace removed (implemented on the
character list so it is structurally recursive). -/
def pyStrip (s : String) : String :=
  ⟨((s.data.dropWhile Char.isWhitespace).reverse.dropWhile Char.isWhitespace).reverse⟩

/-- Python `str.split(" ")`: split on every single space, keeping empty
fields (so a double space yields an empty field, unlike splitting on runs of
whitespace). -/
def splitSpaceAux : List Char → List Char → List String
  | [], acc => [⟨acc.reverse⟩]
  | c :: cs, acc =>
    if c = ' ' then ⟨acc.reverse⟩ :: splitSpaceAux cs []
    else splitSpaceAux cs (c :: acc)

/-- Python `line.split(" ")`. -/
def pySplitSpace (s : String) : List String := splitSpaceAux s.data []

/-- Accumulate decimal digits; `none` on the first non-digit character. -/
def parseDigitsAux : List Char → Nat → Option Nat
  | [], acc => some acc
  | c :: cs, acc =>
    if c.isDigit then parseDigitsAux cs (acc * 10 + (c.toNat - 48)) else none

/-- Python `int(text)`, returning `none` where Python raises `ValueError`:
surrounding whitespace is stripped, an optional sign is allowed, and the rest
must be one or more decimal digits. -/
def pyInt (s : String) : Option Int :=
  match (pyStrip s).data with
  | [] => none
  | c :: rest =>
    if c = '+' then
      if rest = [] then none else (parseDigitsAux rest 0).map Int.ofNat
    else if c = '-' then
      if rest = [] then none else (parseDigitsAux rest 0).map (fun n => -(n : Int))
    else (parseDigitsAux (c :: rest) 0).map Int.ofNat

/-- The text fields of the `ControlToolbar`. -/
structure Toolbar where
  rowsText : String
  colsText : String
  idxText : String
  totalText : String
deriving DecidableEq, Repr

/-- `ControlToolbar.reset` (lines 107-118): redisplay the parent state. -/
def toolbar_reset (v : Viewer) : Toolbar :=
  { rowsText := toString v.subplots.1
    colsText := toString v.subplots.2
    idxText := if v.ndata = 0 then "0" else toString (v.current + 1)
    totalText := " / " ++ toString v.ndata }

/-- `ControlToolbar.change_arrangement` (lines 120-135): on a parse failure of
either field, reset the display and leave the parent untouched; otherwise ask
the parent to rearrange. -/
def change_arrangement (v : Viewer) (tb : Toolbar) : Viewer × Toolbar :=
  match pyInt tb.rowsText, pyInt tb.colsText with
  | some r, some c => (rearrange_plots v (some (r, c)), tb)
  | _, _ => (v, toolbar_reset v)

/-- `ControlToolbar.change_number` (lines 88-99): on a parse failure reset the
display; otherwise seek with `set_current(idx, wrap=False)`, which in turn
refreshes the index field through `update_number` (lines 101-105). -/
def change_number (v : Viewer) (tb : Toolbar) : Viewer × Toolbar :=
  match pyInt tb.idxText with
  | none => (v, toolbar_reset v)
  | some n =>
    let v1 := { v with current := set_current v.ndata v.nsubplots (n - 1) false }
    (v1, { tb with idxText := toString (v1.current + 1) })

/-- The state of a `TSDialog` when `exec` returns: whether it was accepted and
the contents of its input widgets. -/
structure TSDialog where
  accepted : Bool
  rowsText : String
  colsText : String
  timesChecked : Bool
  sepText : String
deriving DecidableEq, Repr

/-- `TSDialog.get_shape` (lines 196-205): `None` unless both fields parse. -/
def get_shape (d : TSDialog) : Option (Int × Int) :=
  match pyInt d.rowsText, pyInt d.colsText with
  | some r, some c => some (r, c)
  | _, _ => none

/-- `TSDialog.get_hastimes` (lines 207-211). -/
def get_hastimes (d : TSDialog) : Bool := d.timesChecked

/-- `TSDialog.get_delimiter` (lines 213-219). -/
def get_delimiter (d : TSDialog) : Option String :=
  if d.sepText = "" then none else some d.sepText

/-- A data file on disk: its text lines, plus the shape of the array that
`np.genfromtxt` (external numpy code) returns for it as a function of the
`skip_header` and `delimiter` arguments it is called with. -/
structure TSFile where
  lines : List String
  genShape : Nat → Option String → List Nat

/-- `lst[i]` on a Python list: `IndexError` when out of range. -/
def listIdx (l : List α) (i : Nat) : Except PyErr α :=
  match l.get? i with
  | some a => Except.ok a
  | none => Except.error PyErr.indexError

/-- Python `int(text)` where failure is the exception `ValueError`. -/
def pyIntE (s : String) : Except PyErr Int :=
  match pyInt s with
  | some n => Except.ok n
  | none => Except.error PyErr.valueError

/-- Python's substring test `pat in s`. -/
def containsSub (s pat : String) : Bool :=
  (List.range (s.data.length + 1)).any (fun i => pat.data.isPrefixOf (s.data.drop i))

/-- Python's membership test `pat in fields` on a list of strings. -/
def listContainsStr (fields : List String) (pat : String) : Bool :=
  fields.any (fun f => f.data == pat.data)

/-- The loaded-data part of the viewer state after a successful `change_data`,
together with the arguments that were passed to `np.genfromtxt`. -/
structure LoadedState where
  dataShape : List Nat
  ndata : Nat
  xLen : Nat
  yLen : Option Nat
  timesLen : Option Nat
  genCall : Nat × Option String
deriving DecidableEq, Repr

/-- Observable outcome of a `change_data` call that does not raise. -/
inductive CDResult
  | cleared
  | kept
  | quitApp
  | loaded (st : LoadedState)
deriving DecidableEq, Repr

/-- Lines 339-343 of `change_data`: `self._times = data[:, 0]` and
`self._data = data[:, 1:]` when `hastimes`, at the level of shapes.  numpy
raises `IndexError` when the array has no second axis (or no columns). -/
def times_step (shape0 : List Nat) (hastimes : Bool) :
    Except PyErr (List Nat × Option Nat) :=
  if hastimes then
    match shape0 with
    | a :: b :: rest =>
      if b = 0 then Except.error PyErr.indexError
      else Except.ok (a :: (b - 1) :: rest, some a)
    | _ => Except.error PyErr.indexError
  else Except.ok (shape0, none)

/-- Lines 345-346 of `change_data`: `data.reshape(-1, rows, cols)` when
`cols > 1`, at the level of shapes.  numpy raises `ValueError` when it cannot
infer the leading `-1` dimension (non-positive `rows` or size not divisible
by `rows * cols`). -/
def reshape_step (shape1 : List Nat) (rows cols : Int) : Except PyErr (List Nat) :=
  if cols > 1 then
    if 0 < rows ∧ (rows * cols).toNat ∣ shape1.prod then
      Except.ok [shape1.prod / (rows * cols).toNat, rows.toNat, cols.toNat]
    else Except.error PyErr.valueError
  else Except.ok shape1

/-- Lines 336-352 of `change_data`: call `np.genfromtxt`, optionally split off
the time column, reshape when `cols > 1`, then read off `_ndata`
(`shape[0]`), `_x` (`arange(shape[1])`) and `_y` (`arange(shape[2])` when the
array has more than 2 axes, else `None`). -/
def load_phase (file : TSFile) (rows cols : Int) (hastimes : Bool)
    (skipheader : Nat) (delim : Option String) : Except PyErr CDResult := do
  let (shape1, timesLen) ← times_step (file.genShape skipheader delim) hastimes
  let shape2 ← reshape_step shape1 rows cols
  let ndata ← listIdx shape2 0
  let xLen ← listIdx shape2 1
  let yLen := if 2 < shape2.length then some (shape2.getD 2 0) else none
  Except.ok (CDResult.loaded
    { dataShape := shape2, ndata := ndata, xLen := xLen, yLen := yLen
      timesLen := timesLen, genCall := (skipheader, delim) })

/-- `TSVisualizer.change_data` (lines 286-358).  `fs` is the file system,
`dialog` the state the `TSDialog` would be in when it returns, `dataLoaded`
whether `self._data is not None` before the call; the remaining parameters are
the Python arguments.  `quit()` on a rejected dialog with no data loaded is
the outcome `quitApp`; the early `return` that keeps the old data is `kept`. -/
def change_data (fs : String → Option TSFile) (dialog : TSDialog)
    (dataLoaded : Bool) (datapath : Option String) (shape : Option (Int × Int))
    (hastimes : Bool) (delimiter : Option String) : Except PyErr CDResult :=
  match datapath with
  | none => Except.ok CDResult.cleared
  | some path =>
    match fs path with
    | none => Except.error PyErr.fileNotFound
    | some file =>
      match file.lines with
      | [] => Except.error PyErr.stopIteration
      | rawline :: _ =>
        let line := pyStrip rawline
        if containsSub line "TSDATA" then do
          let fields := pySplitSpace line
          let f1 ← listIdx fields 1
          let rows ← pyIntE f1
          let f2 ← listIdx fields 2
          let cols ← pyIntE f2
          let ht := hastimes || listContainsStr fields "TIMES"
          load_phase file rows cols ht 1 none
        else
          match shape with
          | none =>
            match dialog.accepted, get_shape dialog with
            | true, some (r, c) =>
              let rc := if r = 1 then (c, r) else (r, c)
              load_phase file rc.1 rc.2 (get_hastimes dialog) 0 (get_delimiter dialog)
            | _, _ =>
              if dataLoaded then Except.ok CDResult.kept else Except.ok CDResult.quitApp
          | some (r, c) =>
            let rc := if r = 1 then (c, r) else (r, c)
            load_phase file rc.1 rc.2 hastimes 0 delimiter

/-- `TSVisualizer.is2d` (lines 360-364): `self._y is None`. -/
def is2d (st : LoadedState) : Bool := st.yLen.isNone

/-- The dispatch in `TSVisualizer.plot_current` (lines 427-435): the
`plot_ts_1d` path is taken exactly when `is2d()` returns `True`. -/
def plot_current_kind (st : LoadedState) : PlotKind :=
  if is2d st then PlotKind.oneD else PlotKind.twoD

/-- `TSVisualizer.open_file` (lines 277-284): `selectedPath` is what the file
dialog returned (`""` when cancelled), in which case nothing happens. -/
def open_file (fs : String → Option TSFile) (dialog : TSDialog)
    (dataLoaded : Bool) (selectedPath : String) : Except PyErr (Option CDResult) :=
  if selectedPath = "" then Except.ok none
  else (change_data fs dialog dataLoaded (some selectedPath) none false none).map some

/-- Start of the last page of the viewer: the largest multiple of `ns` not
exceeding `ndata - 1` (for positive `ns` and `ndata`). -/
def last_page (ndata ns : Int) : Int := ns * ((ndata - 1) / ns)

/-- The boolean value `is_1d` computes on an array with at least one axis. -/
def is_1d_val (shape : List Nat) : Bool :=
  decide (shape.length = 1) || decide (shape.getD 0 0 = 1) || decide (shape.getD 1 0 = 1)

def exFileHdr : TSFile := { lines := ["TSDATA 2 2"], genShape := fun _ _ => [8, 4] }

def exFsHdr : String → Option TSFile :=
  fun p => if p = "a.txt" then some exFileHdr else none

def exFileTab : TSFile := { lines := ["TSDATA\t2\t2"], genShape := fun _ _ => [8, 4] }

def exFsTab : String → Option TSFile :=
  fun p => if p = "b.txt" then some exFileTab else none

def exFilePlain : TSFile := { lines := ["0.1 0.2 0.3 0.4"], genShape := fun _ _ => [6, 4] }

def exFsPlain : String → Option TSFile :=
  fun p => if p = "c.txt" then some exFilePlain else none

def exDialog : TSDialog := ⟨false, "", "", false, ""⟩

def exBadDialog : TSDialog := ⟨true, "x", "2", false, ""⟩

def exViewer : Viewer := ⟨(2, 2), 4, 0, 5⟩

def exBadTB : Toolbar := ⟨"x", "2", "y", " / 5"⟩

theorem align_eq (t ns : Int) : t - t % ns = ns * (t / ns) := by
  have h := Int.ediv_add_emod t ns
  linarith

theorem align_emod (t ns : Int) : (t - t % ns) % ns = 0 := by
  rw [align_eq t ns]
  exact Int.mul_emod_right ns (t / ns)

theorem align_le (t ns : Int) (hns : 0 < ns) : t - t % ns ≤ t := by
  have := Int.emod_nonneg t (ne_of_gt hns)
  linarith

theorem lt_align_add (t ns : Int) (hns : 0 < ns) : t < (t - t % ns) + ns := by
  have := Int.emod_lt_of_pos t hns
  linarith

theorem multiple_le_align (m t ns : Int) (hns : 0 < ns) (hm : m % ns = 0)
    (hle : m ≤ t) : m ≤ t - t % ns := by
  obtain ⟨k, hk⟩ := Int.dvd_of_emod_eq_zero hm
  rw [align_eq t ns, hk]
  have hk2 : k ≤ t / ns := by
    rw [Int.le_ediv_iff_mul_le hns, mul_comm, ← hk]
    exact hle
  exact mul_le_mul_of_nonneg_left hk2 (le_of_lt hns)

theorem last_page_align (ndata ns : Int) :
    last_page ndata ns = (ndata - 1) - (ndata - 1) % ns :=
  (align_eq (ndata - 1) ns).symm

theorem last_page_emod (ndata ns : Int) : last_page ndata ns % ns = 0 :=
  Int.mul_emod_right ns ((ndata - 1) / ns)

theorem last_page_nonneg (ndata ns : Int) (hnd : 0 < ndata) (hns : 0 < ns) :
    0 ≤ last_page ndata ns := by
  rw [last_page_align]
  exact multiple_le_align 0 (ndata - 1) ns hns (Int.zero_emod ns) (by linarith)

theorem last_page_lt (ndata ns : Int) (hns : 0 < ns) :
    last_page ndata ns < ndata := by
  rw [last_page_align]
  have := align_le (ndata - 1) ns hns
  linarith

theorem lastcalc_eq (ndata ns : Int) (hns : 0 < ns) :
    (if ns * (ndata / ns) = ndata then ns * (ndata / ns) - ns
     else ns * (ndata / ns)) = last_page ndata ns := by
  rw [← align_eq ndata ns]
  by_cases hdvd : ndata % ns = 0
  · have halign : ndata - ndata % ns = ndata := by rw [hdvd]; ring
    rw [halign, if_pos rfl, last_page_align]
    have hmul : (ndata - ns) % ns = 0 := by
      rw [Int.sub_emod, hdvd, Int.emod_self]
      simp
    have hle1 : ndata - ns ≤ (ndata - 1) - (ndata - 1) % ns :=
      multiple_le_align (ndata - ns) (ndata - 1) ns hns hmul (by linarith)
    have hle2 : (ndata - 1) - (ndata - 1) % ns ≤ ndata - ns := by
      by_contra hcon
      push_neg at hcon
      set a := (ndata - 1) - (ndata - 1) % ns with ha
      have haemod : a % ns = 0 := align_emod (ndata - 1) ns
      have hdvd2 : ns ∣ (ndata - a) := by
        refine Int.dvd_sub (Int.dvd_of_emod_eq_zero hdvd) (Int.dvd_of_emod_eq_zero haemod)
      have hpos : 0 < ndata - a := by
        have := align_le (ndata - 1) ns hns
        omega
      have := Int.le_of_dvd hpos hdvd2
      omega
    omega
  · have hne : ndata - ndata % ns ≠ ndata := by
      have := Int.emod_nonneg ndata (ne_of_gt hns)
      omega
    rw [if_neg hne, last_page_align]
    have h1 : ndata - ndata % ns ≤ (ndata - 1) - (ndata - 1) % ns := by
      refine multiple_le_align _ _ _ hns (align_emod ndata ns) ?_
      have := Int.emod_nonneg ndata (ne_of_gt hns)
      omega
    have h2 : (ndata - 1) - (ndata - 1) % ns ≤ ndata - ndata % ns := by
      refine multiple_le_align _ _ _ hns (align_emod (ndata - 1) ns) ?_
      have := align_le (ndata - 1) ns hns
      omega
    omega

theorem set_current_true_eq (ndata ns t : Int) (hns : 0 < ns) :
    set_current ndata ns t true =
      if ndata ≤ t - t % ns then 0
      else if t - t % ns < 0 then last_page ndata ns
      else t - t % ns := by
  by_cases h1 : ndata ≤ t - t % ns
  · simp [set_current, h1]
  · by_cases h2 : t - t % ns < 0
    · simp [set_current, h1, h2, ← lastcalc_eq ndata ns hns]
    · simp [set_current, h1, h2]

theorem set_current_false_eq (ndata ns t : Int) (hnd : 0 < ndata) (hns : 0 < ns) :
    set_current ndata ns t false =
      if ndata ≤ t - t % ns then last_page ndata ns
      else if t - t % ns < 0 then 0 else t - t % ns := by
  by_cases h1 : ndata ≤ t - t % ns
  · have hcalc := lastcalc_eq ndata ns hns
    have hlp := last_page_nonneg ndata ns hnd hns
    have hnl : ¬ last_page ndata ns < 0 := by omega
    have hshow : set_current ndata ns t false =
        (if (if ndata ≤ t - t % ns
              then (if ns * (ndata / ns) = ndata then ns * (ndata / ns) - ns
                    else ns * (ndata / ns))
              else t - t % ns) < 0 then 0
         else (if ndata ≤ t - t % ns
               then (if ns * (ndata / ns) = ndata then ns * (ndata / ns) - ns
                     else ns * (ndata / ns))
               else t - t % ns)) := rfl
    rw [hshow, hcalc, if_pos h1, if_neg hnl, if_pos h1]
  · by_cases h2 : t - t % ns < 0
    · simp [set_current, h1, h2]
    · simp [set_current, h1, h2]

/-- Claim C2, counterexample: with 5 surfaces loaded and 4 subplot slots,
the target 6 passed with wrap=True is past the last surface (6 >= 5), yet
set_current moves to 4 (the page containing index 6 rounded down), not to 0
as the claim states for every wrap=True call. -/
theorem C2_counterexample :
    (5:Int) ≤ 6 ∧ set_current 5 4 6 true = 4 ∧ set_current 5 4 6 true ≠ 0 := by
  decide

theorem set_current_zero (ns : Int) (hns : 0 < ns) : set_current 0 ns (0 - ns) true = -ns := by
  have e1 : ((0:Int) - ns) % ns = 0 := Int.emod_eq_zero_of_dvd ⟨-1, by ring⟩
  simp only [set_current, ge_iff_le, e1, Int.zero_ediv, mul_zero, sub_zero,
    eq_self_iff_true, if_true]
  rw [if_neg (show ¬ ((0:Int) ≤ 0 - ns) by omega)]
  rw [if_pos (show (0:Int) - ns < 0 by omega)]
  ring

/-- Claim C2, amended: for total > 0 loaded surfaces and nsubplots >= 1
slots, every set_current call leaves current a multiple of nsubplots with
0 <= current < total; with wrap=True a page-aligned target past the last
surface wraps to 0 and a negative target wraps to the start of the last
page; with wrap=False a target past the end is clamped to the start of the
last page and a negative target to 0 (the first page). -/
theorem C2_amended_set_current (ndata ns t : Int) (w : Bool)
    (hnd : 0 < ndata) (hns : 0 < ns) :
    (set_current ndata ns t w % ns = 0 ∧
      0 ≤ set_current ndata ns t w ∧ set_current ndata ns t w < ndata) ∧
    (w = true → t % ns = 0 → ndata ≤ t → set_current ndata ns t w = 0) ∧
    (w = true → t < 0 → set_current ndata ns t w = last_page ndata ns) ∧
    (w = false → ndata ≤ t → set_current ndata ns t w = last_page ndata ns) ∧
    (w = false → t < 0 → set_current ndata ns t w = 0) := by
  cases w
  · rw [set_current_false_eq ndata ns t hnd hns]
    refine ⟨?_, fun h => Bool.noConfusion h, fun h => Bool.noConfusion h, ?_, ?_⟩
    · by_cases h1 : ndata ≤ t - t % ns
      · rw [if_pos h1]
        exact ⟨last_page_emod ndata ns, last_page_nonneg ndata ns hnd hns,
          last_page_lt ndata ns hns⟩
      · rw [if_neg h1]
        by_cases h2 : t - t % ns < 0
        · rw [if_pos h2]
          exact ⟨Int.zero_emod ns, le_refl 0, hnd⟩
        · rw [if_neg h2]
          exact ⟨align_emod t ns, by omega, by omega⟩
    · intro _ ht
      by_cases h1 : ndata ≤ t - t % ns
      · rw [if_pos h1]
      · have hal0 : (0:Int) ≤ t - t % ns :=
          multiple_le_align 0 t ns hns (Int.zero_emod ns) (by omega)
        rw [if_neg h1, if_neg (by omega)]
        have hle1 : t - t % ns ≤ last_page ndata ns := by
          rw [last_page_align]
          exact multiple_le_align _ _ _ hns (align_emod t ns) (by omega)
        have hle2 : last_page ndata ns ≤ t - t % ns := by
          refine multiple_le_align _ _ _ hns (last_page_emod ndata ns) ?_
          have := last_page_lt ndata ns hns
          omega
        omega
    · intro _ htneg
      have := align_le t ns hns
      rw [if_neg (by omega), if_pos (by omega)]
  · rw [set_current_true_eq ndata ns t hns]
    refine ⟨?_, ?_, ?_, fun h => Bool.noConfusion h, fun h => Bool.noConfusion h⟩
    · by_cases h1 : ndata ≤ t - t % ns
      · rw [if_pos h1]
        exact ⟨Int.zero_emod ns, le_refl 0, hnd⟩
      · rw [if_neg h1]
        by_cases h2 : t - t % ns < 0
        · rw [if_pos h2]
          exact ⟨last_page_emod ndata ns, last_page_nonneg ndata ns hnd hns,
            last_page_lt ndata ns hns⟩
        · rw [if_neg h2]
          exact ⟨align_emod t ns, by omega, by omega⟩
    · intro _ hmod hge
      rw [if_pos (by omega : ndata ≤ t - t % ns)]
    · intro _ hneg
      have := align_le t ns hns
      rw [if_neg (by omega), if_pos (by omega)]

/-- Claim C8: when no data is loaded (total = 0) and current = 0, goback
(set_current with target -nsubplots and wrap=True) sets the current index to
-nsubplots, a negative value, rather than keeping it at 0; the bound
0 <= current therefore needs the precondition total > 0. -/
theorem C8_goback_negative (v : Viewer) (hnd : v.ndata = 0) (hcur : v.current = 0)
    (hns : 0 < v.nsubplots) :
    (goback v).current = -v.nsubplots ∧ (goback v).current < 0 := by
  have h := set_current_zero v.nsubplots hns
  constructor
  · show set_current v.ndata v.nsubplots (v.current - v.nsubplots) true = -v.nsubplots
    rw [hnd, hcur]
    exact h
  · show set_current v.ndata v.nsubplots (v.current - v.nsubplots) true < 0
    rw [hnd, hcur, h]
    omega

/-- Closed instance of C8_goback_negative at nsubplots = 4. -/
theorem C8_witness : (goback ⟨(2, 2), 4, 0, 0⟩).current = -4 :=
  (C8_goback_negative ⟨(2, 2), 4, 0, 0⟩ rfl rfl (by decide)).1

/-- Closed instances of C2_amended_set_current: wrap past the end, wrap on a
negative target, clamping past the end, clamping a negative target. -/
theorem C2_witness :
    set_current 5 4 8 true = 0 ∧ set_current 5 4 (-4) true = 4 ∧
    set_current 5 4 100 false = 4 ∧ set_current 5 4 (-3) false = 0 := by
  refine ⟨?_, ?_, ?_, ?_⟩
  · exact (C2_amended_set_current 5 4 8 true (by decide) (by decide)).2.1 rfl (by decide)
      (by decide)
  · have h := (C2_amended_set_current 5 4 (-4) true (by decide) (by decide)).2.2.1 rfl
      (by decide)
    rw [h]
    decide
  · have h := (C2_amended_set_current 5 4 100 false (by decide) (by decide)).2.2.2.1 rfl
      (by decide)
    rw [h]
    decide
  · exact (C2_amended_set_current 5 4 (-3) false (by decide) (by decide)).2.2.2.2 rfl
      (by decide)

/-- Claim C1, counterexample: for 7 time surfaces the automatic layout is
(2, 4), leaving one empty subplot slot, while the layout (7, 1) also
satisfies rows * cols >= 7 and leaves no empty slot, so the chosen layout
does not minimise empty slots over all layouts. -/
theorem C1_counterexample :
    autoArrangement 7 = (2, 4) ∧
    (autoArrangement 7).1 * (autoArrangement 7).2 - 7 = 1 ∧
    7 ≤ 7 * 1 ∧ 7 * 1 - 7 = 0 := by decide

/-- Claim C1, amended: for fewer than 3 surfaces the automatic layout is one
row of n columns; for n >= 3 the chosen column count is 3, 4 or 5, rows is
ceil(n / cols), the grid fits all surfaces, and the number of empty subplot
slots is minimal among the candidate column counts 3, 4 and 5 only. -/
theorem C1_layout_heuristic :
    (∀ n : Nat, 1 ≤ n → n < 3 → autoArrangement n = (1, n)) ∧
    (∀ n : Nat, 3 ≤ n →
      ((autoArrangement n).2 = 3 ∨ (autoArrangement n).2 = 4 ∨ (autoArrangement n).2 = 5) ∧
      (autoArrangement n).1 = npCeil n (autoArrangement n).2 ∧
      n ≤ (autoArrangement n).1 * (autoArrangement n).2 ∧
      ∀ c : Nat, c = 3 ∨ c = 4 ∨ c = 5 →
        (autoArrangement n).1 * (autoArrangement n).2 - n ≤ npCeil n c * c - n) := by
  constructor
  · intro n _ h
    simp [autoArrangement, h]
  · intro n h
    have h3 : ¬ n < 3 := by omega
    by_cases h45 : 4 * npCeil n 4 - n < 5 * npCeil n 5 - n
    · by_cases h34 : 3 * npCeil n 3 - n < 4 * npCeil n 4 - n
      · have he : autoArrangement n = (npCeil n 3, 3) := by
          simp [autoArrangement, h3, h45, h34]
        rw [he]
        refine ⟨by norm_num, rfl, ?_, ?_⟩
        · simp only [npCeil]
          omega
        · intro c hc
          rcases hc with rfl | rfl | rfl <;>
            (simp only [npCeil] at h45 h34 ⊢; omega)
      · have he : autoArrangement n = (npCeil n 4, 4) := by
          simp [autoArrangement, h3, h45, h34]
        rw [he]
        refine ⟨by norm_num, rfl, ?_, ?_⟩
        · simp only [npCeil]
          omega
        · intro c hc
          rcases hc with rfl | rfl | rfl <;>
            (simp only [npCeil] at h45 h34 ⊢; omega)
    · by_cases h35 : 3 * npCeil n 3 - n < 5 * npCeil n 5 - n
      · have he : autoArrangement n = (npCeil n 3, 3) := by
          simp [autoArrangement, h3, h45, h35]
        rw [he]
        refine ⟨by norm_num, rfl, ?_, ?_⟩
        · simp only [npCeil]
          omega
        · intro c hc
          rcases hc with rfl | rfl | rfl <;>
            (simp only [npCeil] at h45 h35 ⊢; omega)
      · have he : autoArrangement n = (npCeil n 5, 5) := by
          simp [autoArrangement, h3, h45, h35]
        rw [he]
        refine ⟨by norm_num, rfl, ?_, ?_⟩
        · simp only [npCeil]
          omega
        · intro c hc
          rcases hc with rfl | rfl | rfl <;>
            (simp only [npCeil] at h45 h35 ⊢; omega)

/-- Closed instance of C1_layout_heuristic at n = 7. -/
theorem C1_witness :
    ((autoArrangement 7).2 = 3 ∨ (autoArrangement 7).2 = 4 ∨ (autoArrangement 7).2 = 5) ∧
    7 ≤ (autoArrangement 7).1 * (autoArrangement 7).2 :=
  ⟨(C1_layout_heuristic.2 7 (by decide)).1, (C1_layout_heuristic.2 7 (by decide)).2.2.1⟩

theorem is_1d_ok (shape : List Nat) (h : 1 ≤ shape.length) :
    is_1d shape = Except.ok (is_1d_val shape) := by
  match shape with
  | [s0] =>
    simp [is_1d, is_1d_val]
  | s0 :: s1 :: rest =>
    by_cases h0 : s0 = 1
    · simp [is_1d, is_1d_val, h0]
    · by_cases h1 : s1 = 1 <;> simp [is_1d, is_1d_val, h0, h1]

/-- Claim C7, counterexample: on a zero-dimensional array is_1d raises
IndexError (evaluating shape[0] on an empty shape) instead of returning
False as the claim requires for every numeric array. -/
theorem C7_counterexample :
    is_1d [] = Except.error PyErr.indexError ∧ is_1d [] ≠ Except.ok false := by
  constructor
  · rfl
  · intro h
    exact Except.noConfusion h

/-- Claim C7, amended: for every array with at least one dimension, is_1d
returns True iff the array has exactly one dimension, or its first dimension
has size 1, or it has a second dimension of size 1; in particular it returns
False for every 2-d array whose two dimensions are both greater than 1. -/
theorem C7_is_1d_domain :
    (∀ shape : List Nat, 1 ≤ shape.length →
      (is_1d shape = Except.ok true ↔
        (shape.length = 1 ∨ shape.getD 0 0 = 1 ∨
          (2 ≤ shape.length ∧ shape.getD 1 0 = 1)))) ∧
    (∀ a b : Nat, 1 < a → 1 < b → is_1d [a, b] = Except.ok false) := by
  constructor
  · intro shape h
    rw [is_1d_ok shape h]
    simp only [Except.ok.injEq]
    match shape with
    | [s0] => simp [is_1d_val]
    | s0 :: s1 :: rest => simp [is_1d_val]
  · intro a b ha hb
    rw [is_1d_ok [a, b] (by simp)]
    simp [is_1d_val]
    omega

/-- Closed instances of C7_is_1d_domain. -/
theorem C7_witness :
    is_1d [1, 7] = Except.ok true ∧ is_1d [3, 4] = Except.ok false := by
  constructor
  · exact (C7_is_1d_domain.1 [1, 7] (by decide)).2 (by norm_num)
  · exact C7_is_1d_domain.2 3 4 (by decide) (by decide)

theorem dispatch_list_ok (tss : List (List Nat)) (h : ∀ ts ∈ tss, 1 ≤ ts.length) :
    dispatch_list tss =
      Except.ok (tss.map (fun ts => if is_1d_val ts then PlotKind.oneD else PlotKind.twoD)) := by
  induction tss with
  | nil => rfl
  | cons t ts ih =>
    have ht : 1 ≤ t.length := h t (by simp)
    have hts : ∀ x ∈ ts, 1 ≤ x.length := fun x hx => h x (by simp [hx])
    simp [dispatch_list, is_1d_ok t ht, ih hts]
    rfl

/-- Claim C6: plot_ts dispatches to the 1-d plot routine exactly when is_1d
holds and to the 2-d routine otherwise, and plot_multiple_ts applies the
same per-element dispatch to each surface of the list (stated for 1-d and
2-d time surfaces, on which is_1d cannot raise). -/
theorem C6_dispatch :
    (∀ ts : List Nat, ts.length = 1 ∨ ts.length = 2 →
      is_1d ts = Except.ok (is_1d_val ts) ∧
      plot_ts ts = Except.ok (if is_1d_val ts then PlotKind.oneD else PlotKind.twoD)) ∧
    (∀ (tss : List (List Nat)) (arrangement : Option (Nat × Nat)),
      (∀ ts ∈ tss, ts.length = 1 ∨ ts.length = 2) →
      ∃ rc : Nat × Nat, plot_multiple_ts tss arrangement =
        Except.ok (rc, tss.map
          (fun ts => if is_1d_val ts then PlotKind.oneD else PlotKind.twoD))) := by
  constructor
  · intro ts hts
    have h1 : 1 ≤ ts.length := by omega
    refine ⟨is_1d_ok ts h1, ?_⟩
    simp [plot_ts, is_1d_ok ts h1]
  · intro tss arrangement htss
    have h1 : ∀ ts ∈ tss, 1 ≤ ts.length := by
      intro ts hts
      rcases htss ts hts with h | h <;> omega
    refine ⟨?_, ?_⟩
    · exact match arrangement with
        | some a => a
        | none => autoArrangement tss.length
    · simp [plot_multiple_ts, dispatch_list_ok tss h1]

/-- Closed instance of C6_dispatch on a 2-d surface. -/
theorem C6_witness :
    is_1d [4, 4] = Except.ok (is_1d_val [4, 4]) ∧
    plot_ts [4, 4] = Except.ok (if is_1d_val [4, 4] then PlotKind.oneD else PlotKind.twoD) :=
  C6_dispatch.1 [4, 4] (by decide)

theorem except_bind_ok {α β : Type} (a : α) (f : α → Except PyErr β) :
    (Except.ok a : Except PyErr α) >>= f = f a := rfl

theorem except_bind_error {α β : Type} (e : PyErr) (f : α → Except PyErr β) :
    (Except.error e : Except PyErr α) >>= f = Except.error e := rfl

theorem listIdx_eq_ok {α : Type} (l : List α) (i : Nat) (a : α)
    (h : listIdx l i = Except.ok a) : l.get? i = some a := by
  unfold listIdx at h
  cases hg : l.get? i with
  | none => rw [hg] at h; exact Except.noConfusion h
  | some b => rw [hg] at h; injection h with hba; rw [hba]

theorem load_phase_loaded_inv (file : TSFile) (rows cols : Int) (ht : Bool)
    (sk : Nat) (dl : Option String) (st : LoadedState)
    (h : load_phase file rows cols ht sk dl = Except.ok (CDResult.loaded st)) :
    2 ≤ st.dataShape.length ∧
    (st.yLen = none ↔ st.dataShape.length = 2) ∧
    st.genCall = (sk, dl) := by
  unfold load_phase at h
  cases h1 : times_step (file.genShape sk dl) ht with
  | error e => rw [h1, except_bind_error] at h; exact Except.noConfusion h
  | ok p =>
    obtain ⟨s1, tl⟩ := p
    rw [h1, except_bind_ok] at h
    dsimp only [] at h
    cases h2 : reshape_step s1 rows cols with
    | error e => rw [h2, except_bind_error] at h; exact Except.noConfusion h
    | ok s2 =>
      rw [h2, except_bind_ok] at h
      cases h3 : listIdx s2 0 with
      | error e => rw [h3, except_bind_error] at h; exact Except.noConfusion h
      | ok nd =>
        rw [h3, except_bind_ok] at h
        cases h4 : listIdx s2 1 with
        | error e => rw [h4, except_bind_error] at h; exact Except.noConfusion h
        | ok xl =>
          rw [h4, except_bind_ok] at h
          simp only [Except.ok.injEq, CDResult.loaded.injEq] at h
          subst h
          have hget := listIdx_eq_ok s2 1 xl h4
          have hlen : 1 < s2.length := by
            rcases List.get?_eq_some.mp hget with ⟨hl, _⟩
            exact hl
          refine ⟨by simpa using hlen, ?_, rfl⟩
          by_cases hlen2 : 2 < s2.length
          · simp only [hlen2, if_true]
            simp
            omega
          · simp only [hlen2, if_false]
            simp
            omega

theorem change_data_missing (fs : String → Option TSFile) (d : TSDialog)
    (dl : Bool) (path : String) (shape : Option (Int × Int)) (ht : Bool)
    (delim : Option String) (hfs : fs path = none) :
    change_data fs d dl (some path) shape ht delim = Except.error PyErr.fileNotFound := by
  simp only [change_data, hfs]

theorem change_data_tsdata (fs : String → Option TSFile) (d : TSDialog)
    (dl : Bool) (path : String) (file : TSFile) (rawline : String)
    (rest : List String) (shape : Option (Int × Int)) (ht : Bool)
    (delim : Option String) (f1 f2 : String) (rows cols : Int)
    (hfs : fs path = some file) (hlines : file.lines = rawline :: rest)
    (hhdr : containsSub (pyStrip rawline) "TSDATA" = true)
    (h1 : listIdx (pySplitSpace (pyStrip rawline)) 1 = Except.ok f1)
    (hr : pyIntE f1 = Except.ok rows)
    (h2 : listIdx (pySplitSpace (pyStrip rawline)) 2 = Except.ok f2)
    (hc : pyIntE f2 = Except.ok cols) :
    change_data fs d dl (some path) shape ht delim =
      load_phase file rows cols (ht || listContainsStr (pySplitSpace (pyStrip rawline)) "TIMES")
        1 none := by
  simp only [change_data, hfs, hlines, hhdr, if_true, h1, except_bind_ok, hr, h2, hc]

theorem change_data_shape_arg (fs : String → Option TSFile) (d : TSDialog)
    (dl : Bool) (path : String) (file : TSFile) (rawline : String)
    (rest : List String) (r c : Int) (ht : Bool) (delim : Option String)
    (hfs : fs path = some file) (hlines : file.lines = rawline :: rest)
    (hhdr : containsSub (pyStrip rawline) "TSDATA" = false) :
    change_data fs d dl (some path) (some (r, c)) ht delim =
      load_phase file (if r = 1 then (c, r) else (r, c)).1
        (if r = 1 then (c, r) else (r, c)).2 ht 0 delim := by
  simp only [change_data, hfs, hlines, hhdr, Bool.false_eq_true, if_false]

theorem change_data_dialog_fail (fs : String → Option TSFile) (d : TSDialog)
    (path : String) (file : TSFile) (rawline : String) (rest : List String)
    (ht : Bool) (delim : Option String)
    (hfs : fs path = some file) (hlines : file.lines = rawline :: rest)
    (hhdr : containsSub (pyStrip rawline) "TSDATA" = false)
    (hshape : get_shape d = none) :
    change_data fs d true (some path) none ht delim = Except.ok CDResult.kept := by
  cases hacc : d.accepted <;>
    simp only [change_data, hfs, hlines, hhdr, Bool.false_eq_true, if_false, hshape,
      hacc, if_true]

theorem change_data_dialog_shape (fs : String → Option TSFile) (d : TSDialog)
    (dl : Bool) (path : String) (file : TSFile) (rawline : String)
    (rest : List String) (ht : Bool) (delim : Option String) (r c : Int)
    (hfs : fs path = some file) (hlines : file.lines = rawline :: rest)
    (hhdr : containsSub (pyStrip rawline) "TSDATA" = false)
    (hacc : d.accepted = true) (hshape : get_shape d = some (r, c)) :
    change_data fs d dl (some path) none ht delim =
      load_phase file (if r = 1 then (c, r) else (r, c)).1
        (if r = 1 then (c, r) else (r, c)).2 (get_hastimes d) 0
        (get_delimiter d) := by
  simp only [change_data, hfs, hlines, hhdr, Bool.false_eq_true, if_false, hacc,
    hshape]

theorem change_data_loaded_inv (fs : String → Option TSFile) (d : TSDialog)
    (dl : Bool) (dp : Option String) (shape : Option (Int × Int)) (ht : Bool)
    (delim : Option String) (st : LoadedState)
    (h : change_data fs d dl dp shape ht delim = Except.ok (CDResult.loaded st)) :
    ∃ (file : TSFile) (rows cols : Int) (ht2 : Bool) (sk : Nat)
      (dl2 : Option String),
      load_phase file rows cols ht2 sk dl2 = Except.ok (CDResult.loaded st) := by
  match dp with
  | none =>
    simp only [change_data, Except.ok.injEq] at h
    exact absurd h (by simp)
  | some path =>
    cases hfs : fs path with
    | none =>
      rw [change_data_missing fs d dl path shape ht delim hfs] at h
      exact Except.noConfusion h
    | some file =>
      cases hlines : file.lines with
      | nil =>
        simp only [change_data, hfs, hlines] at h
        exact Except.noConfusion h
      | cons rawline rest =>
        simp only [change_data, hfs, hlines] at h
        by_cases hhdr : containsSub (pyStrip rawline) "TSDATA" = true
        · rw [if_pos hhdr] at h
          cases h1 : listIdx (pySplitSpace (pyStrip rawline)) 1 with
          | error e => rw [h1, except_bind_error] at h; exact Except.noConfusion h
          | ok f1 =>
            rw [h1, except_bind_ok] at h
            cases hr : pyIntE f1 with
            | error e => rw [hr, except_bind_error] at h; exact Except.noConfusion h
            | ok rows =>
              rw [hr, except_bind_ok] at h
              cases h2 : listIdx (pySplitSpace (pyStrip rawline)) 2 with
              | error e => rw [h2, except_bind_error] at h; exact Except.noConfusion h
              | ok f2 =>
                rw [h2, except_bind_ok] at h
                cases hc : pyIntE f2 with
                | error e => rw [hc, except_bind_error] at h; exact Except.noConfusion h
                | ok cols =>
                  rw [hc, except_bind_ok] at h
                  exact ⟨file, rows, cols, _, 1, none, h⟩
        · rw [if_neg hhdr] at h
          match shape with
          | some (r, c) => exact ⟨file, _, _, ht, 0, delim, h⟩
          | none =>
            cases hacc : d.accepted with
            | true =>
              cases hshape : get_shape d with
              | none =>
                rw [hacc, hshape] at h
                simp only [Except.ok.injEq] at h
                cases dl <;> simp at h
              | some rc =>
                obtain ⟨r, c⟩ := rc
                rw [hacc, hshape] at h
                exact ⟨file, _, _, get_hastimes d, 0, get_delimiter d, h⟩
            | false =>
              rw [hacc] at h
              simp only [Except.ok.injEq] at h
              cases dl <;> simp at h

/-- Claim C3, counterexample: a file with header TSDATA 2 2 and no TIMES
token, loaded with hastimes=True, still treats the first data column as
times (timesLen is set), refuting the claimed iff; and a header whose fields
are separated by tabs raises IndexError instead of yielding rows = 2 and
cols = 2, because the code splits on single spaces, not on whitespace. -/
theorem C3_counterexample :
    change_data exFsHdr exDialog false (some "a.txt") none true none
      = Except.ok (CDResult.loaded ⟨[6, 2, 2], 6, 2, some 2, some 8, (1, none)⟩) ∧
    listContainsStr (pySplitSpace "TSDATA 2 2") "TIMES" = false ∧
    (some 8 : Option Nat) ≠ none ∧
    change_data exFsTab exDialog false (some "b.txt") none false none
      = Except.error PyErr.indexError := by
  refine ⟨by rfl, by rfl, by simp, by rfl⟩

/-- Claim C3, amended: when the first line contains TSDATA, rows and cols
are parsed from the second and third single-space-separated fields of the
stripped line, exactly one header line is skipped, the delimiter argument is
ignored (genfromtxt is called with delimiter None), and the first data
column is treated as times iff the TIMES token is among the fields or
hastimes was already passed as True. -/
theorem C3_tsdata_header :
    ∀ (fs : String → Option TSFile) (d : TSDialog) (dl : Bool) (path : String)
      (file : TSFile) (rawline : String) (rest : List String)
      (shape : Option (Int × Int)) (ht : Bool) (delim : Option String)
      (f1 f2 : String) (rows cols : Int),
      fs path = some file → file.lines = rawline :: rest →
      containsSub (pyStrip rawline) "TSDATA" = true →
      listIdx (pySplitSpace (pyStrip rawline)) 1 = Except.ok f1 →
      pyIntE f1 = Except.ok rows →
      listIdx (pySplitSpace (pyStrip rawline)) 2 = Except.ok f2 →
      pyIntE f2 = Except.ok cols →
      (change_data fs d dl (some path) shape ht delim =
        load_phase file rows cols
          (ht || listContainsStr (pySplitSpace (pyStrip rawline)) "TIMES") 1 none) ∧
      (∀ st : LoadedState,
        change_data fs d dl (some path) shape ht delim =
          Except.ok (CDResult.loaded st) →
        st.genCall = (1, none)) := by
  intro fs d dl path file rawline rest shape ht delim f1 f2 rows cols hfs hlines hhdr
    h1 hr h2 hc
  have he := change_data_tsdata fs d dl path file rawline rest shape ht delim f1 f2
    rows cols hfs hlines hhdr h1 hr h2 hc
  refine ⟨he, ?_⟩
  intro st hst
  rw [he] at hst
  exact (load_phase_loaded_inv file rows cols _ 1 none st hst).2.2

/-- Closed instance of C3_tsdata_header on the TSDATA 2 2 example file. -/
theorem C3_witness :
    change_data exFsHdr exDialog false (some "a.txt") none false none =
      load_phase exFileHdr 2 2 false 1 none :=
  (C3_tsdata_header exFsHdr exDialog false "a.txt" exFileHdr "TSDATA 2 2" []
    none false none "2" "2" 2 2 (by rfl) (by rfl) (by rfl) (by rfl) (by rfl)
    (by rfl) (by rfl)).1

/-- Claim C4, counterexample: opening a missing data file makes change_data
and open_file return the uncaught FileNotFoundError; no dialog box or silent
fallback intervenes. -/
theorem C4_counterexample :
    open_file (fun _ => none) exDialog true "missing.txt"
      = Except.error PyErr.fileNotFound ∧
    change_data (fun _ => none) exDialog true (some "missing.txt") none false none
      = Except.error PyErr.fileNotFound :=
  ⟨rfl, rfl⟩

/-- Claim C4, amended: for every path naming a missing file, change_data
propagates FileNotFoundError (the open call is not wrapped in any handler),
and open_file propagates the same error whenever a nonempty path was
selected in the file dialog. -/
theorem C4_missing_file :
    (∀ (fs : String → Option TSFile) (d : TSDialog) (dl : Bool) (path : String)
      (shape : Option (Int × Int)) (ht : Bool) (delim : Option String),
      fs path = none →
      change_data fs d dl (some path) shape ht delim =
        Except.error PyErr.fileNotFound) ∧
    (∀ (fs : String → Option TSFile) (d : TSDialog) (dl : Bool) (path : String),
      path ≠ "" → fs path = none →
      open_file fs d dl path = Except.error PyErr.fileNotFound) := by
  constructor
  · intro fs d dl path shape ht delim h
    exact change_data_missing fs d dl path shape ht delim h
  · intro fs d dl path hne h
    simp only [open_file, if_neg hne]
    rw [change_data_missing fs d dl path none false none h]
    rfl

/-- Closed instance of C4_missing_file. -/
theorem C4_witness :
    change_data (fun _ => none) exDialog false (some "nofile.txt") none false none =
      Except.error PyErr.fileNotFound :=
  C4_missing_file.1 (fun _ => none) exDialog false "nofile.txt" none false none (by rfl)

/-- Claim C5: a toolbar rows/cols or index field that does not parse as an
integer makes change_arrangement / change_number reset the displayed values
and leave the viewer arrangement and current index unchanged; a shape dialog
whose fields do not parse gives get_shape = None; and change_data then
returns keeping the previously loaded data when data was already loaded. -/
theorem C5_malformed_input :
    (∀ (v : Viewer) (tb : Toolbar),
      pyInt tb.rowsText = none ∨ pyInt tb.colsText = none →
      change_arrangement v tb = (v, toolbar_reset v)) ∧
    (∀ (v : Viewer) (tb : Toolbar),
      pyInt tb.idxText = none → change_number v tb = (v, toolbar_reset v)) ∧
    (∀ d : TSDialog, pyInt d.rowsText = none ∨ pyInt d.colsText = none →
      get_shape d = none) ∧
    (∀ (fs : String → Option TSFile) (d : TSDialog) (path : String)
      (file : TSFile) (rawline : String) (rest : List String) (ht : Bool)
      (delim : Option String),
      fs path = some file → file.lines = rawline :: rest →
      containsSub (pyStrip rawline) "TSDATA" = false → get_shape d = none →
      change_data fs d true (some path) none ht delim = Except.ok CDResult.kept) := by
  refine ⟨?_, ?_, ?_, ?_⟩
  · intro v tb h
    rcases h with h | h
    · cases hx : pyInt tb.colsText <;> simp [change_arrangement, h, hx]
    · cases hx : pyInt tb.rowsText <;> simp [change_arrangement, h, hx]
  · intro v tb h
    simp [change_number, h]
  · intro d h
    rcases h with h | h
    · cases hx : pyInt d.colsText <;> simp [get_shape, h, hx]
    · cases hx : pyInt d.rowsText <;> simp [get_shape, h, hx]
  · intro fs d path file rawline rest ht delim hfs hlines hhdr hshape
    exact change_data_dialog_fail fs d path file rawline rest ht delim hfs hlines
      hhdr hshape

/-- Closed instances of C5_malformed_input on unparsable field contents. -/
theorem C5_witness :
    change_arrangement exViewer exBadTB = (exViewer, toolbar_reset exViewer) ∧
    change_number exViewer exBadTB = (exViewer, toolbar_reset exViewer) ∧
    get_shape exBadDialog = none ∧
    change_data exFsPlain exBadDialog true (some "c.txt") none false none =
      Except.ok CDResult.kept :=
  ⟨C5_malformed_input.1 exViewer exBadTB (Or.inl (by rfl)),
   C5_malformed_input.2.1 exViewer exBadTB (by rfl),
   C5_malformed_input.2.2.1 exBadDialog (Or.inl (by rfl)),
   C5_malformed_input.2.2.2 exFsPlain exBadDialog "c.txt" exFilePlain "0.1 0.2 0.3 0.4" []
     false none (by rfl) (by rfl) (by rfl) (by rfl)⟩

/-- Claim C9: after any successful change_data, is2d() returns True iff the
loaded time surfaces are one-dimensional (the loaded data array has exactly
2 axes, so _y is None) — the negation of what its name and docstring state —
and plot_current dispatches to plot_ts_1d exactly when is2d() is True. -/
theorem C9_is2d_inverted (fs : String → Option TSFile) (d : TSDialog) (dl : Bool)
    (dp : Option String) (shape : Option (Int × Int)) (ht : Bool)
    (delim : Option String) (st : LoadedState)
    (h : change_data fs d dl dp shape ht delim = Except.ok (CDResult.loaded st)) :
    (is2d st = true ↔ st.dataShape.length = 2) ∧
    (is2d st = true ↔ (st.dataShape.drop 1).length = 1) ∧
    (is2d st = true ↔ st.dataShape.length ≤ 2) ∧
    (plot_current_kind st = PlotKind.oneD ↔ is2d st = true) := by
  obtain ⟨file, rows, cols, ht2, sk, dl2, hl⟩ :=
    change_data_loaded_inv fs d dl dp shape ht delim st h
  obtain ⟨hlen, hiff, _⟩ := load_phase_loaded_inv file rows cols ht2 sk dl2 st hl
  have hy : (is2d st = true) ↔ st.yLen = none := by
    simp [is2d, Option.isNone_iff_eq_none]
  refine ⟨?_, ?_, ?_, ?_⟩
  · rw [hy]
    exact hiff
  · rw [hy, hiff]
    simp only [List.length_drop]
    omega
  · rw [hy, hiff]
    omega
  · unfold plot_current_kind
    by_cases hb : is2d st <;> simp [hb]

/-- Closed instance of C9_is2d_inverted on a loaded 2-d data set. -/
theorem C9_witness :
    plot_current_kind ⟨[8, 2, 2], 8, 2, some 2, none, (1, none)⟩ = PlotKind.oneD ↔
      is2d ⟨[8, 2, 2], 8, 2, some 2, none, (1, none)⟩ = true :=
  (C9_is2d_inverted exFsHdr exDialog false (some "a.txt") none false none
    ⟨[8, 2, 2], 8, 2, some 2, none, (1, none)⟩ (by rfl)).2.2.2

/-- Claim C10: for a file without a TSDATA header loaded with an explicit or
dialog-provided shape, a shape (1, n) is loaded identically to (n, 1),
because rows and cols are swapped before reshaping whenever rows = 1 — first
conjunct for the explicit shape argument, second conjunct for a shape coming
from an accepted dialog (two dialogs that agree on the times checkbox and
the delimiter field but give shapes (1, n) and (n, 1) load identically); the
swap never applies to a TSDATA header, whose parsed rows value is used
unchanged even when it is 1 (third conjunct). -/
theorem C10_shape_swap :
    (∀ (fs : String → Option TSFile) (d : TSDialog) (dl : Bool) (path : String)
      (file : TSFile) (rawline : String) (rest : List String) (ht : Bool)
      (delim : Option String) (n : Int),
      fs path = some file → file.lines = rawline :: rest →
      containsSub (pyStrip rawline) "TSDATA" = false →
      change_data fs d dl (some path) (some (1, n)) ht delim =
        change_data fs d dl (some path) (some (n, 1)) ht delim) ∧
    (∀ (fs : String → Option TSFile) (d1 d2 : TSDialog) (dl : Bool)
      (path : String) (file : TSFile) (rawline : String) (rest : List String)
      (ht : Bool) (delim : Option String) (n : Int),
      fs path = some file → file.lines = rawline :: rest →
      containsSub (pyStrip rawline) "TSDATA" = false →
      d1.accepted = true → d2.accepted = true →
      get_shape d1 = some (1, n) → get_shape d2 = some (n, 1) →
      get_hastimes d1 = get_hastimes d2 → get_delimiter d1 = get_delimiter d2 →
      change_data fs d1 dl (some path) none ht delim =
        change_data fs d2 dl (some path) none ht delim) ∧
    (∀ (fs : String → Option TSFile) (d : TSDialog) (dl : Bool) (path : String)
      (file : TSFile) (rawline : String) (rest : List String)
      (shape : Option (Int × Int)) (ht : Bool) (delim : Option String)
      (f1 f2 : String) (cols : Int),
      fs path = some file → file.lines = rawline :: rest →
      containsSub (pyStrip rawline) "TSDATA" = true →
      listIdx (pySplitSpace (pyStrip rawline)) 1 = Except.ok f1 →
      pyIntE f1 = Except.ok 1 →
      listIdx (pySplitSpace (pyStrip rawline)) 2 = Except.ok f2 →
      pyIntE f2 = Except.ok cols →
      change_data fs d dl (some path) shape ht delim =
        load_phase file 1 cols
          (ht || listContainsStr (pySplitSpace (pyStrip rawline)) "TIMES") 1 none) := by
  refine ⟨?_, ?_, ?_⟩
  · intro fs d dl path file rawline rest ht delim n hfs hlines hhdr
    rw [change_data_shape_arg fs d dl path file rawline rest 1 n ht delim hfs hlines
      hhdr, change_data_shape_arg fs d dl path file rawline rest n 1 ht delim hfs
      hlines hhdr]
    by_cases hn : n = 1
    · subst hn
      simp
    · simp [hn]
  · intro fs d1 d2 dl path file rawline rest ht delim n hfs hlines hhdr hacc1 hacc2
      hs1 hs2 hht hdel
    rw [change_data_dialog_shape fs d1 dl path file rawline rest ht delim 1 n hfs
      hlines hhdr hacc1 hs1,
      change_data_dialog_shape fs d2 dl path file rawline rest ht delim n 1 hfs
      hlines hhdr hacc2 hs2, hht, hdel]
    by_cases hn : n = 1
    · subst hn
      simp
    · simp [hn]
  · intro fs d dl path file rawline rest shape ht delim f1 f2 cols hfs hlines hhdr
      h1 hr h2 hc
    exact change_data_tsdata fs d dl path file rawline rest shape ht delim f1 f2
      1 cols hfs hlines hhdr h1 hr h2 hc

/-- Closed instances of C10_shape_swap: the explicit shapes (1, 4) and (4, 1)
load the example file identically, and so do two accepted dialogs whose shape
fields read 1 x 4 and 4 x 1. -/
theorem C10_witness :
    (change_data exFsPlain exDialog false (some "c.txt") (some (1, 4)) false none =
      change_data exFsPlain exDialog false (some "c.txt") (some (4, 1)) false none) ∧
    (change_data exFsPlain ⟨true, "1", "4", false, ""⟩ false (some "c.txt") none
        false none =
      change_data exFsPlain ⟨true, "4", "1", false, ""⟩ false (some "c.txt") none
        false none) :=
  ⟨C10_shape_swap.1 exFsPlain exDialog false "c.txt" exFilePlain "0.1 0.2 0.3 0.4" []
    false none 4 (by rfl) (by rfl) (by rfl),
   C10_shape_swap.2.1 exFsPlain ⟨true, "1", "4", false, ""⟩ ⟨true, "4", "1", false, ""⟩
    false "c.txt" exFilePlain "0.1 0.2 0.3 0.4" [] false none 4 (by rfl) (by rfl)
    (by rfl) (by rfl) (by rfl) (by rfl) (by rfl) (by rfl) (by rfl)⟩
